import Mathlib

/-!
Verification of the AVE dominaplus protocol client core.

Python strings are modelled as lists of Unicode code points (`PyStr`),
matching Python's `str` semantics where `ord` may return any code point up
to 0x10FFFF.  Machine arithmetic follows Python's unbounded integers:
`>>` is floor division, `&` with a positive mask is Euclidean remainder.
Raising an exception is modelled by `Except ServerState ServerState`,
whose `error` payload is the state at the moment of the raise (Python
mutations performed before the raise persist).
-/

/-- A Python string, as the list of code points of its characters. -/
abbrev PyStr := List Nat

/-- Code points of a Lean string literal, used to transcribe the Python
string literals appearing in the source. -/
def strCodes (s : String) : PyStr := s.data.map Char.toNat

/-- Code point of the single uppercase hexadecimal digit for `d < 16`,
as produced by Python's `hex(d)[2:].upper()`. -/
def hexDigitCode (d : Nat) : Nat := if d < 10 then 48 + d else 55 + d

/-- Fuelled big-endian hexadecimal digit expansion (uppercase).  The fuel
is only there to make the recursion structural; `hexRep` always supplies
enough of it. -/
def hexRepAux : Nat → Nat → List Nat
  | 0, n => [hexDigitCode (n % 16)]
  | fuel + 1, n => if n < 16 then [hexDigitCode n] else hexRepAux fuel (n / 16) ++ [hexDigitCode (n % 16)]

/-- Uppercase hexadecimal digit string of a natural number, i.e. Python's
`hex(n)[2:].upper()` for `n ≥ 0` (so `hexRep 0 = "0"`). -/
def hexRep (n : Nat) : List Nat := hexRepAux n n

/-- `AveWebServer.value_to_hex`: `hex(value)[2:].upper()`.  For a negative
argument Python renders `-0x…`, and slicing off the first two characters
leaves `x…`, uppercased to `X…` (code point 88). -/
def value_to_hex (v : Int) : PyStr :=
  if v < 0 then 88 :: hexRep v.natAbs else hexRep v.toNat

/-- `AveWebServer.build_crc`: XOR of all code points, complemented via
`0xFF - crc` (which can go negative for code points above 0xFF, since
Python integers are unbounded), then high "nibble" (`>> 4`, floor
division) and low nibble (`& 0xF`, Euclidean remainder) each rendered by
`value_to_hex`. -/
def build_crc (rawstring : PyStr) : PyStr :=
  let crc0 : Nat := rawstring.foldl (· ^^^ ·) 0
  let crc : Int := 255 - (crc0 : Int)
  value_to_hex (Int.fdiv crc 16) ++ value_to_hex (crc % 16)

/-- The `parameters` argument of `AveWebServer.send_ws_command`: absent
(`None`), a Python `str`, or a list of `str`. -/
inductive PyParamArg
  | noArg
  | ofStr (s : PyStr)
  | ofList (l : List PyStr)
deriving DecidableEq

/-- Python truthiness of the `parameters` argument (`if parameters:`). -/
def PyParamArg.truthy : PyParamArg → Bool
  | .noArg => false
  | .ofStr s => s ≠ []
  | .ofList l => l ≠ []

/-- `chr(0x1D).join(parameters)`.  Joining a `str` iterates its
characters, so a multi-character string is interleaved with GS bytes. -/
def PyParamArg.joined : PyParamArg → PyStr
  | .noArg => []
  | .ofStr s => List.intercalate [29] (s.map (fun c => [c]))
  | .ofList l => List.intercalate [29] l

/-- Frame payload built by `AveWebServer.send_ws_command`:
`STX + command (+ GS + GS-join(parameters)) + ETX + crc + EOT`. -/
def send_ws_command_message (command : PyStr) (parameters : PyParamArg) : PyStr :=
  let message := [2] ++ command ++ (if parameters.truthy then [29] ++ parameters.joined else []) ++ [3]
  message ++ build_crc message ++ [4]

/-- A decoded frame: command, flat parameters, data records. -/
structure Frame where
  command : PyStr
  parameters : List PyStr
  records : List (List PyStr)
deriving DecidableEq

/-- Decoding of one EOT-separated unit inside `AveWebServer.on_message`:
units shorter than 3 characters are dropped; otherwise `msg[1:-3]` is
split on RS (0x1E) into header and record rows, and each of those on GS
(0x1D). -/
def decodeUnit (msg : PyStr) : Option Frame :=
  if msg.length < 3 then none
  else
    let str_msg := (msg.take (msg.length - 3)).drop 1
    match str_msg.splitOn 30 with
    | [] => none
    | cmd_params :: records_data =>
      match cmd_params.splitOn 29 with
      | [] => none
      | command :: parameters =>
        some ⟨command, parameters, records_data.map (fun record => record.splitOn 29)⟩

/-- The pure decode of a whole multiplexed buffer: split on EOT (0x04)
and decode each unit, dropping the too-short ones. -/
def decodeFrames (buf : PyStr) : List Frame :=
  (buf.splitOn 4).filterMap decodeUnit

/-- `Encode(command, parameters)` of the specification: the frame bytes
`send_ws_command` builds when handed a list of parameter strings. -/
def encodeCommand (command : PyStr) (parameters : List PyStr) : PyStr :=
  send_ws_command_message command (.ofList parameters)

/-- `AveWebServerSettings` (fields relevant to dispatch and caching). -/
structure Settings where
  get_entity_names : Bool
  fetch_sensor_areas : Bool
  fetch_sensors : Bool
  fetch_lights : Bool
deriving DecidableEq

/-- State of one `MotionBinarySensor` entity.  A Python `bool` stored in
`_is_motion_detected` is rendered as the integer 1 or 0, matching
Python's `bool <: int`. -/
structure MotionBS where
  unique_id : PyStr
  family : Int
  ave_device_id : Int
  is_motion_detected : Option Int
  last_revealed : Option Nat
  last_cleared : Option Nat
  ave_name : Option PyStr
  name : PyStr
deriving DecidableEq

/-- State of one `LightSwitch` entity.  `is_on_raw` is the `_is_on`
field as stored by `__init__`; `attr_is_on` is `_attr_is_on` (absent
means the platform shows the switch as unknown). -/
structure LightSw where
  unique_id : PyStr
  family : Int
  ave_device_id : Int
  is_on_raw : Option Int
  attr_is_on : Option Bool
  ave_name : Option PyStr
  name : PyStr
deriving DecidableEq

/-- Observable state of the `AveWebServer` session together with the two
device tables and the externally visible effects (messages written to
the socket, `async_write_ha_state` notifications, entity creations).
`name_changed` is the answer of the external entity-registry
collaborator `check_name_changed`, constant over one dispatch.  `now` is
the value `utcnow()` would render, one fixed timestamp per dispatch. -/
structure ServerState where
  settings : Settings
  binary_sensors : List (PyStr × MotionBS)
  switches : List (PyStr × LightSw)
  sent : List PyStr
  notifications : List PyStr
  created_bs : List PyStr
  created_sw : List PyStr
  async_add_bs_entities : Option Nat
  async_add_sw_entities : Option Nat
  ws_connected : Bool
  name_changed : Bool
  now : Nat
deriving DecidableEq

/-- Ordered-dictionary lookup (Python `dict` preserves insertion order). -/
def dictGet (k : PyStr) : List (PyStr × β) → Option β
  | [] => none
  | (k', v) :: rest => if k' = k then some v else dictGet k rest

/-- Ordered-dictionary write: replace in place, or append a new key. -/
def dictSet (k : PyStr) (v : β) : List (PyStr × β) → List (PyStr × β)
  | [] => [(k, v)]
  | (k', v') :: rest => if k' = k then (k, v) :: rest else (k', v') :: dictSet k v rest

/-- Record one `async_write_ha_state` call for the entity `uid`. -/
def notify (st : ServerState) (uid : PyStr) : ServerState :=
  { st with notifications := st.notifications ++ [uid] }

/-- Record one wire message handed to `ws_conn.send_str`;
`send_ws_command` only writes when the socket is connected and open. -/
def send_ws_command (st : ServerState) (command : PyStr) (parameters : PyParamArg) : ServerState :=
  if st.ws_connected then { st with sent := st.sent ++ [send_ws_command_message command parameters] }
  else st

/-- Python truthiness of `self._is_motion_detected` (`None` and `0` are
falsy). -/
def MotionBS.statusTruthy (d : MotionBS) : Bool :=
  match d.is_motion_detected with
  | none => false
  | some v => v ≠ 0

/-- `MotionBinarySensor.update_state`: a non-`None` status always stamps
`last_revealed` when positive, stamps `last_cleared` when the previous
status was truthy, stores the new status and notifies the platform.  The
returned boolean records whether `async_write_ha_state` was called. -/
def MotionBS.update_state (d : MotionBS) (is_motion_detected : Option Int) (now : Nat) :
    MotionBS × Bool :=
  match is_motion_detected with
  | none => (d, false)
  | some v =>
    let d1 := if v > 0 then { d with last_revealed := some now }
              else if d.statusTruthy then { d with last_cleared := some now }
              else d
    ({ d1 with is_motion_detected := some v }, true)

/-- `MotionBinarySensor.is_on`: `None` status is unknown, otherwise
motion is shown iff the stored status is positive. -/
def MotionBS.is_on (d : MotionBS) : Option Bool :=
  match d.is_motion_detected with
  | none => none
  | some v => some (v > 0)

/-- Brand prefix of default entity names.  Modelled from the spec: the
repository's `const.py` (declaring `BRAND_PREFIX`) is not under `src/`;
the concrete text is irrelevant to every claim, only that it is one
fixed string. -/
def brandCodes : PyStr := strCodes "AVE"

/-- `MotionBinarySensor.build_name`. -/
def bs_build_name (family : Int) (ave_device_id : Int) : PyStr :=
  let suffix := if family = 12 then strCodes "antitheft area"
                else if family = 1007 then strCodes "antitheft sensor"
                else strCodes "sensor type " ++ strCodes (toString family)
  brandCodes ++ strCodes " " ++ suffix ++ strCodes " " ++ strCodes (toString ave_device_id)

/-- `LightSwitch.build_name`. -/
def sw_build_name (family : Int) (ave_device_id : Int) : PyStr :=
  let suffix := if family = 1 then strCodes "light"
                else if family = 6 then strCodes "sccenario"
                else strCodes "sensor type " ++ strCodes (toString family)
  brandCodes ++ strCodes " " ++ suffix ++ strCodes " " ++ strCodes (toString ave_device_id)

/-- `binary_sensor.set_sensor_uid`: `f"ave_motion_{family}_{device_id}"`. -/
def bs_set_sensor_uid (family : Int) (device_id : Int) : PyStr :=
  strCodes "ave_motion_" ++ strCodes (toString family) ++ strCodes "_" ++ strCodes (toString device_id)

/-- `switch.set_sensor_uid`: `f"ave_switch_{family}_{ave_device_id}"`. -/
def sw_set_sensor_uid (family : Int) (ave_device_id : Int) : PyStr :=
  strCodes "ave_switch_" ++ strCodes (toString family) ++ strCodes "_" ++ strCodes (toString ave_device_id)

/-- Body of `binary_sensor.update_binary_sensor` past the settings gate. -/
def update_binary_sensor_core (st : ServerState) (family : Int) (ave_device_id : Int)
    (device_status : Int) (name : Option PyStr) : ServerState :=
  let uid := bs_set_sensor_uid family ave_device_id
  match dictGet uid st.binary_sensors with
  | some sensor =>
    let p1 : MotionBS × ServerState :=
      if device_status ≥ 0 then
        let r := sensor.update_state (some device_status) st.now
        (r.1, if r.2 then notify st uid else st)
      else (sensor, st)
    let p2 : MotionBS × ServerState :=
      match name with
      | some nm =>
        if st.settings.get_entity_names then
          let withAve := { p1.1 with ave_name := some nm }
          let st' := notify p1.2 uid
          if ¬ st.name_changed then ({ withAve with name := nm }, st') else (withAve, st')
        else p1
      | none => p1
    { p2.2 with binary_sensors := dictSet uid p2.1 p2.2.binary_sensors }
  | none =>
    let sensor0 : MotionBS :=
      { unique_id := uid, family := family, ave_device_id := ave_device_id
        is_motion_detected := some (if device_status > 0 then 1 else 0)
        last_revealed := none, last_cleared := none, ave_name := none
        name := bs_build_name family ave_device_id }
    let p1 : MotionBS × ServerState :=
      if family = 1007 then
        let nm := bs_build_name family ave_device_id
        if ¬ st.name_changed then ({ sensor0 with name := nm }, st) else (sensor0, st)
      else
        match name with
        | some nm =>
          if st.settings.get_entity_names then
            if ¬ st.name_changed then
              ({ sensor0 with ave_name := some nm, name := nm }, notify st uid)
            else (sensor0, st)
          else (sensor0, st)
        | none => (sensor0, st)
    { p1.2 with binary_sensors := dictSet uid p1.1 p1.2.binary_sensors
                created_bs := p1.2.created_bs ++ [uid] }

/-- `binary_sensor.update_binary_sensor`.  The platform-boot callbacks
(`update_binary_sensor` slot, `async_add_bs_entities`) are taken as
wired, as the platforms do during setup before any frame is dispatched. -/
def update_binary_sensor (st : ServerState) (family : Int) (ave_device_id : Int)
    (device_status : Int) (name : Option PyStr) : ServerState :=
  if family = 12 then
    if ¬ st.settings.fetch_sensor_areas then st
    else update_binary_sensor_core st family ave_device_id device_status name
  else if family = 1007 then
    if ¬ st.settings.fetch_sensors then st
    else update_binary_sensor_core st family ave_device_id device_status name
  else st

/-- `LightSwitch.update_state`: a `None` or negative status is ignored;
otherwise `_attr_is_on := bool(is_on)` and the platform is notified. -/
def LightSw.update_state (w : LightSw) (is_on : Option Int) : LightSw × Bool :=
  match is_on with
  | none => (w, false)
  | some v =>
    if v < 0 then (w, false)
    else ({ w with attr_is_on := some (v ≠ 0) }, true)

/-- Body of `switch.update_switch` past the settings gate. -/
def update_switch_core (st : ServerState) (family : Int) (ave_device_id : Int)
    (device_status : Int) (name : Option PyStr) : ServerState :=
  let uid := sw_set_sensor_uid family ave_device_id
  match dictGet uid st.switches with
  | some sw =>
    let p1 : LightSw × ServerState :=
      if device_status ≥ 0 then
        let r := sw.update_state (some device_status)
        (r.1, if r.2 then notify st uid else st)
      else (sw, st)
    let p2 : LightSw × ServerState :=
      match name with
      | some nm =>
        if st.settings.get_entity_names then
          let withAve := { p1.1 with ave_name := some nm }
          let st' := notify p1.2 uid
          if ¬ st.name_changed then ({ withAve with name := nm }, notify st' uid) else (withAve, st')
        else p1
      | none => p1
    { p2.2 with switches := dictSet uid p2.1 p2.2.switches }
  | none =>
    let entity_name : Option PyStr :=
      match name with
      | some nm => if st.settings.get_entity_names then some nm else none
      | none => none
    let sw0 : LightSw :=
      { unique_id := uid, family := family, ave_device_id := ave_device_id
        is_on_raw := some device_status
        attr_is_on := if device_status ≥ 0 then some (device_status ≠ 0) else none
        ave_name := entity_name
        name := match entity_name with
                | some nm => nm
                | none => sw_build_name family ave_device_id }
    { st with switches := dictSet uid sw0 st.switches
              created_sw := st.created_sw ++ [uid] }

/-- `switch.update_switch`, with the platform callbacks taken as wired. -/
def update_switch (st : ServerState) (family : Int) (ave_device_id : Int)
    (device_status : Int) (name : Option PyStr) : ServerState :=
  if family = 1 then
    if ¬ st.settings.fetch_lights then st
    else update_switch_core st family ave_device_id device_status name
  else st

/-- Whether a code point is an ASCII decimal digit. -/
def isDigitCode (c : Nat) : Bool := 48 ≤ c ∧ c ≤ 57

/-- Decimal value of a digit string. -/
def digitsVal (ds : PyStr) : Int :=
  ds.foldl (fun a c => a * 10 + ((c : Int) - 48)) 0

/-- Python's `int(s)` on the strings this protocol carries: optional
surrounding spaces, an optional sign, then at least one ASCII digit
(`none` models the `ValueError` raise; exotic syntax such as underscores
or non-ASCII digits is not used by the hub and not modelled). -/
def pyInt (s : PyStr) : Option Int :=
  let t := ((s.dropWhile (· = 32)).reverse.dropWhile (· = 32)).reverse
  match t with
  | 45 :: ds => if ds ≠ [] ∧ ds.all isDigitCode then some (-(digitsVal ds)) else none
  | 43 :: ds => if ds ≠ [] ∧ ds.all isDigitCode then some (digitsVal ds) else none
  | ds => if ds ≠ [] ∧ ds.all isDigitCode then some (digitsVal ds) else none

/-- Record loop of `manage_gsf` for motion families: each record's first
two fields are parsed as `(device_id, status)` and routed to
`update_binary_sensor`; a missing field or a bad integer raises,
keeping the updates already applied. -/
def gsfBSLoop (family : Int) : List (List PyStr) → ServerState → Except ServerState ServerState
  | [], st => .ok st
  | record :: rest, st =>
    match record[0]?.bind pyInt, record[1]?.bind pyInt with
    | some device_id, some device_status =>
      gsfBSLoop family rest (update_binary_sensor st family device_id device_status none)
    | _, _ => .error st

/-- Record loop of `manage_gsf` for family 1 (lights). -/
def gsfSWLoop : List (List PyStr) → ServerState → Except ServerState ServerState
  | [], st => .ok st
  | record :: rest, st =>
    match record[0]?.bind pyInt, record[1]?.bind pyInt with
    | some device_id, some device_status =>
      gsfSWLoop rest (update_switch st 1 device_id device_status none)
    | _, _ => .error st

/-- `AveWebServer.manage_gsf`: family `"7"`/`"12"` records go to the
binary-sensor table, family `"1"` records to the switch table; other
families are only logged.  `parameters[0]` on an empty list raises. -/
def manage_gsf (parameters : List PyStr) (records : List (List PyStr)) (st : ServerState) :
    Except ServerState ServerState :=
  match parameters[0]? with
  | none => .error st
  | some p0 =>
    if p0 = strCodes "7" then gsfBSLoop 7 records st
    else if p0 = strCodes "12" then gsfBSLoop 12 records st
    else if p0 = strCodes "1" then gsfSWLoop records st
    else .ok st

/-- Record loop of `manage_ldi`: `(device_id, device_name, device_type)`
per record; device type 12 seeds a binary sensor and type 1 a switch,
both with status −1 and the listed name; types 11/4/6/8 are recognized
no-ops, anything else is logged and skipped. -/
def ldiLoop : List (List PyStr) → ServerState → Except ServerState ServerState
  | [], st => .ok st
  | record :: rest, st =>
    match record[0]?.bind pyInt, record[1]?, record[2]?.bind pyInt with
    | some device_id, some device_name, some device_type =>
      let st' :=
        if device_type = 12 then update_binary_sensor st 12 device_id (-1) (some device_name)
        else if device_type = 11 then st
        else if device_type = 1 then update_switch st 1 device_id (-1) (some device_name)
        else st
      ldiLoop rest st'
    | _, _, _ => .error st

/-- `AveWebServer.manage_ldi` (the `parameters` are never read). -/
def manage_ldi (_parameters : List PyStr) (records : List (List PyStr)) (st : ServerState) :
    Except ServerState ServerState :=
  ldiLoop records st

/-- `AveWebServer.manage_upd`: sub-dispatch on `parameters[0]` (and for
`"X"`/`"WT"` also `parameters[1]`, whose read raises when absent). -/
def manage_upd (parameters : List PyStr) (_records : List (List PyStr)) (st : ServerState) :
    Except ServerState ServerState :=
  match parameters[0]? with
  | none => .error st
  | some p0 =>
    if p0 = strCodes "WS" then
      match parameters[1]?.bind pyInt, parameters[2]?.bind pyInt, parameters[3]?.bind pyInt with
      | some device_type, some device_id, some device_status =>
        if device_id > 200000 then .ok st
        else if device_type = 1 ∧ st.settings.fetch_lights then
          .ok (update_switch st device_type device_id device_status none)
        else .ok st
      | _, _, _ => .error st
    else if p0 = strCodes "X" then
      match parameters[1]? with
      | none => .error st
      | some p1 =>
        if p1 = strCodes "A" then
          if ¬ st.settings.fetch_sensor_areas then .ok st
          else
            match parameters[2]?.bind pyInt, parameters[6]?.bind pyInt with
            | some area_progressive, some area_clear =>
              let status : Int := if area_clear > 0 then 0 else 1
              .ok (update_binary_sensor st 12 area_progressive status none)
            | _, _ => .error st
        else if p1 = strCodes "S" then
          if ¬ st.settings.fetch_sensors then .ok st
          else
            match parameters[2]?.bind pyInt, parameters[4]?.bind pyInt with
            | some sensor_id, some sensor_status =>
              .ok (update_binary_sensor st 1007 sensor_id sensor_status none)
            | _, _ => .error st
        else .ok st
    else if p0 = strCodes "WT" then
      match parameters[1]? with
      | none => .error st
      | some _ => .ok st
    else if p0 = strCodes "TT" ∨ p0 = strCodes "TP" ∨ p0 = strCodes "TR" then .ok st
    else if p0 = strCodes "TLO" ∨ p0 = strCodes "D" then .ok st
    else if p0 = strCodes "GUI" then .ok st
    else .ok st

/-- `AveWebServer.manage_commands`: top-level dispatch on the command
string.  `ack` reads `parameters[0]` inside its log call (raising on an
empty list), `nack` guards that same read, unknown commands are only
logged. -/
def manage_commands (command : PyStr) (parameters : List PyStr) (records : List (List PyStr))
    (st : ServerState) : Except ServerState ServerState :=
  if command = strCodes "pong" then .ok st
  else if command = strCodes "ack" then
    match parameters[0]? with
    | none => .error st
    | some _ => .ok st
  else if command = strCodes "ping" then .ok (send_ws_command st (strCodes "PONG") .noArg)
  else if command = strCodes "gsf" then manage_gsf parameters records st
  else if command = strCodes "upd" then manage_upd parameters records st
  else if command = strCodes "ldi" then manage_ldi parameters records st
  else if command = strCodes "cld" then .ok st
  else if command = strCodes "net" then .ok st
  else if command = strCodes "nack" then .ok st
  else .ok st

/-- Decode one EOT-separated unit (skipping short ones) and dispatch it;
an exception escapes with the state reached so far. -/
def dispatchUnit (msg : PyStr) (st : ServerState) : Except ServerState ServerState :=
  match decodeUnit msg with
  | none => .ok st
  | some f => manage_commands f.command f.parameters f.records st

/-- The unit loop of `on_message`: the `try` block wraps the whole loop,
so the first exception ends processing of the remaining units (the
handler only logs). -/
def processUnits : List PyStr → ServerState → ServerState
  | [], st => st
  | u :: rest, st =>
    match dispatchUnit u st with
    | .ok st' => processUnits rest st'
    | .error st' => st'

/-- `AveWebServer.on_message`: split the buffer on EOT and run the unit
loop under the buffer-level exception handler. -/
def on_message (message : PyStr) (st : ServerState) : ServerState :=
  processUnits (message.splitOn 4) st

deriving instance DecidableEq for Except

/-- `AveWebServer.set_async_add_bs_entities`: the "create sensor"
callback slot, written only while still unset.  Callbacks are abstracted
by numeric identity. -/
def set_async_add_bs_entities (st : ServerState) (func : Nat) : ServerState :=
  if st.async_add_bs_entities = none then { st with async_add_bs_entities := some func } else st

/-- `AveWebServer.set_async_add_sw_entities`: the "create switch"
callback slot, written only while still unset. -/
def set_async_add_sw_entities (st : ServerState) (func : Nat) : ServerState :=
  if st.async_add_sw_entities = none then { st with async_add_sw_entities := some func } else st

/-- Events observable at the socket boundary of `AveWebServer.start`:
the fixed 5-second back-off sleeps and the wire messages written. -/
inductive ConnEv
  | sleep5
  | send (msg : PyStr)
deriving DecidableEq

/-- Wire messages written by `AveWebServer.on_connect_actions`, in
order: `LDI`; `GSF` with the single-character string `"1"` when lights
are enabled; `GSF` with the list `["12"]` and `WSF` with the
two-character string `"12"` when sensor areas are enabled; `SU3`. -/
def on_connect_actions (s : Settings) : List PyStr :=
  [send_ws_command_message (strCodes "LDI") .noArg]
    ++ (if s.fetch_lights then [send_ws_command_message (strCodes "GSF") (.ofStr (strCodes "1"))] else [])
    ++ (if s.fetch_sensor_areas then
          [send_ws_command_message (strCodes "GSF") (.ofList [strCodes "12"]),
           send_ws_command_message (strCodes "WSF") (.ofStr (strCodes "12"))]
        else [])
    ++ [send_ws_command_message (strCodes "SU3") .noArg]

/-- The connect phase of `AveWebServer.start`, driven by a script of
`authenticate` outcomes: each failure sleeps 5 seconds and retries; the
first success runs `on_connect_actions` and enters the receive loop
(where this model stops). -/
def start_until_receive : List Bool → Settings → List ConnEv
  | [], _ => []
  | ok :: rest, s =>
    if ok then (on_connect_actions s).map ConnEv.send
    else ConnEv.sleep5 :: start_until_receive rest s

/-- Settings with every fetch option enabled. -/
def allOn : Settings :=
  { get_entity_names := true, fetch_sensor_areas := true, fetch_sensors := true, fetch_lights := true }

/-- A freshly constructed session: empty tables, no effects recorded,
callback slots unset, socket connected, external names untouched. -/
def initState (s : Settings) (now : Nat) : ServerState :=
  { settings := s, binary_sensors := [], switches := [], sent := [], notifications := []
    created_bs := [], created_sw := [], async_add_bs_entities := none
    async_add_sw_entities := none, ws_connected := true, name_changed := false, now := now }

/-- The control bytes of the wire protocol: STX, ETX, EOT, GS, RS. -/
def ctlCodes : List Nat := [2, 3, 4, 29, 30]

/-- Settings with everything enabled except sensor areas. -/
def areasOff : Settings :=
  { get_entity_names := true, fetch_sensor_areas := false, fetch_sensors := true
    fetch_lights := true }

/-- A concrete motion sensor currently reporting no motion, used by the
C5 statements. -/
def c5bs : MotionBS :=
  { unique_id := strCodes "ave_motion_12_5", family := 12, ave_device_id := 5
    is_motion_detected := some 0, last_revealed := none, last_cleared := none
    ave_name := none, name := strCodes "AVE antitheft area 5" }

theorem foldl_xor_lt : ∀ (l : PyStr) (a : Nat), a < 256 → (∀ c ∈ l, c < 256) →
    l.foldl (· ^^^ ·) a < 256
  | [], _, ha, _ => ha
  | c :: rest, a, ha, h => by
    have h256 : (256 : Nat) = 2 ^ 8 := by norm_num
    have hc : c < 256 := h c (List.mem_cons_self c rest)
    have hx : a ^^^ c < 256 := by
      rw [h256] at ha hc ⊢
      exact Nat.xor_lt_two_pow ha hc
    exact foldl_xor_lt rest (a ^^^ c) hx (fun d hd => h d (List.mem_cons_of_mem c hd))

theorem hexRep_single {n : Nat} (h : n < 16) : hexRep n = [hexDigitCode n] := by
  match n with
  | 0 => rfl
  | Nat.succ m =>
    show hexRepAux (m + 1) (m + 1) = _
    unfold hexRepAux
    rw [if_pos h]

theorem value_to_hex_ofNat (n : Nat) : value_to_hex (n : Int) = hexRep n := by
  unfold value_to_hex
  rw [if_neg (by omega)]
  simp

theorem hexDigitCode_bounds {d : Nat} (h : d < 16) :
    48 ≤ hexDigitCode d ∧ hexDigitCode d ≤ 70 := by
  unfold hexDigitCode
  split <;> omega

theorem build_crc_bounded (s : PyStr) (h : s.foldl (· ^^^ ·) 0 ≤ 255) :
    build_crc s = hexRep ((255 - s.foldl (· ^^^ ·) 0) / 16) ++
      hexRep ((255 - s.foldl (· ^^^ ·) 0) % 16) := by
  have hcast : (255 : Int) - ((s.foldl (· ^^^ ·) 0 : Nat) : Int) =
      ((255 - s.foldl (· ^^^ ·) 0 : Nat) : Int) := by omega
  have h16 : ((16 : Nat) : Int) = (16 : Int) := by norm_num
  have hfd : ((255 - s.foldl (· ^^^ ·) 0 : Nat) : Int).fdiv 16 =
      (((255 - s.foldl (· ^^^ ·) 0) / 16 : Nat) : Int) := by
    rw [← h16, ← Int.ofNat_fdiv]
  have hmd : ((255 - s.foldl (· ^^^ ·) 0 : Nat) : Int) % 16 =
      (((255 - s.foldl (· ^^^ ·) 0) % 16 : Nat) : Int) := by
    rw [← h16, Int.ofNat_mod_ofNat]
  simp only [build_crc, hcast, hfd, hmd, value_to_hex_ofNat]

/-- C1: for strings whose characters all fit in a byte, `build_crc`
returns exactly the two uppercase hexadecimal digit characters of the
high and low nibble of `0xFF - XOR`; determinism is definitional, as
`build_crc` is a pure function of its argument.  (This is the claim
amended with the byte-range hypothesis; without it the claim fails,
see the counterexample.) -/
theorem C1_checksum_shape (s : PyStr) (h : ∀ c ∈ s, c < 256) :
    build_crc s = [hexDigitCode ((255 - s.foldl (· ^^^ ·) 0) >>> 4),
      hexDigitCode ((255 - s.foldl (· ^^^ ·) 0) &&& 15)] ∧
    (build_crc s).length = 2 := by
  have hX : s.foldl (· ^^^ ·) 0 < 256 := foldl_xor_lt s 0 (by norm_num) h
  have hdiv : (255 - s.foldl (· ^^^ ·) 0) / 16 < 16 := by omega
  have hmod : (255 - s.foldl (· ^^^ ·) 0) % 16 < 16 := Nat.mod_lt _ (by norm_num)
  have hshift : (255 - s.foldl (· ^^^ ·) 0) >>> 4 = (255 - s.foldl (· ^^^ ·) 0) / 16 := by
    rw [Nat.shiftRight_eq_div_pow]
  have hand : (255 - s.foldl (· ^^^ ·) 0) &&& 15 = (255 - s.foldl (· ^^^ ·) 0) % 16 := by
    have := Nat.and_pow_two_sub_one_eq_mod (255 - s.foldl (· ^^^ ·) 0) 4
    norm_num at this
    exact this
  rw [build_crc_bounded s (by omega), hexRep_single hdiv, hexRep_single hmod, hshift, hand]
  exact ⟨rfl, rfl⟩

/-- C1 witness: the checksum of the concrete command string `LDI`. -/
theorem C1_checksum_shape_witness :
    build_crc (strCodes "LDI") = [hexDigitCode ((255 - (strCodes "LDI").foldl (· ^^^ ·) 0) >>> 4),
      hexDigitCode ((255 - (strCodes "LDI").foldl (· ^^^ ·) 0) &&& 15)] ∧
    (build_crc (strCodes "LDI")).length = 2 :=
  C1_checksum_shape (strCodes "LDI") (by decide)

/-- C1 counterexample: on the one-character string `"Ā"` (code point
0x100) the XOR exceeds 0xFF, `0xFF - X` is negative, and Python's
`hex(…)[2:].upper()` renders it as `X1`, so the "checksum" has three
characters (`X1F`), not two. -/
theorem C1_counterexample : (build_crc [256]).length = 3 := by decide

theorem build_crc_two (m : PyStr) (h : ∀ c ∈ m, c < 256) :
    ∃ d1 d2, build_crc m = [d1, d2] ∧ 48 ≤ d1 ∧ d1 ≤ 70 ∧ 48 ≤ d2 ∧ d2 ≤ 70 := by
  have hX : m.foldl (· ^^^ ·) 0 < 256 := foldl_xor_lt m 0 (by norm_num) h
  have hdiv : (255 - m.foldl (· ^^^ ·) 0) / 16 < 16 := by omega
  have hmod : (255 - m.foldl (· ^^^ ·) 0) % 16 < 16 := Nat.mod_lt _ (by norm_num)
  rw [build_crc_bounded m (by omega), hexRep_single hdiv, hexRep_single hmod]
  exact ⟨_, _, rfl, (hexDigitCode_bounds hdiv).1, (hexDigitCode_bounds hdiv).2,
    (hexDigitCode_bounds hmod).1, (hexDigitCode_bounds hmod).2⟩

theorem splitOn_sepFree {x : Nat} {l : PyStr} (h : x ∉ l) : l.splitOn x = [l] := by
  unfold List.splitOn
  refine List.splitOnP_eq_single _ _ (fun y hy hbeq => ?_)
  exact h (by rwa [show y = x from by simpa using hbeq] at hy)

theorem intercalate_two (x : Nat) (a b : PyStr) (t : List PyStr) :
    List.intercalate [x] (a :: b :: t) = a ++ x :: List.intercalate [x] (b :: t) := by
  simp [List.intercalate, List.intersperse_cons_cons]

theorem intercalate_one (x : Nat) (a : PyStr) : List.intercalate [x] [a] = a := by
  simp [List.intercalate]

theorem mem_intercalate_single {x c : Nat} :
    ∀ {ls : List PyStr}, c ∈ List.intercalate [x] ls → c = x ∨ ∃ l ∈ ls, c ∈ l
  | [], h => by simp [List.intercalate] at h
  | [a], h => by
    rw [intercalate_one] at h
    exact Or.inr ⟨a, List.mem_singleton_self a, h⟩
  | a :: b :: t, h => by
    rw [intercalate_two] at h
    rcases List.mem_append.1 h with ha | hrest
    · exact Or.inr ⟨a, List.mem_cons_self a _, ha⟩
    · rcases List.mem_cons.1 hrest with rfl | htail
      · exact Or.inl rfl
      · rcases mem_intercalate_single htail with rfl | ⟨l, hl, hcl⟩
        · exact Or.inl rfl
        · exact Or.inr ⟨l, List.mem_cons_of_mem a hl, hcl⟩

theorem splitOn_term {x : Nat} {u : PyStr} (h : x ∉ u) : (u ++ [x]).splitOn x = [u, []] := by
  have hinter : u ++ [x] = [x].intercalate [u, []] := by
    simp [List.intercalate]
  rw [hinter]
  refine List.splitOn_intercalate _ x ?_ (by simp)
  intro l hl
  rcases List.mem_cons.1 hl with rfl | hl'
  · exact h
  · simp only [List.mem_singleton] at hl'
    simp [hl']

theorem decodeFrames_encoded (body : PyStr)
    (hblt : ∀ c ∈ body, c < 256) (hb4 : 4 ∉ body) (hb30 : 30 ∉ body)
    (cmd : PyStr) (ps : List PyStr) (hsplit : body.splitOn 29 = cmd :: ps) :
    decodeFrames (([2] ++ body ++ [3]) ++ build_crc ([2] ++ body ++ [3]) ++ [4]) =
      [⟨cmd, ps, []⟩] := by
  have hmlt : ∀ c ∈ [2] ++ body ++ [3], c < 256 := by
    intro c hcm
    rcases (by simpa using hcm : c = 2 ∨ c ∈ body ∨ c = 3) with rfl | hb | rfl
    · norm_num
    · exact hblt c hb
    · norm_num
  obtain ⟨d1, d2, hcrc, h1l, h1u, h2l, h2u⟩ := build_crc_two ([2] ++ body ++ [3]) hmlt
  have hx4 : 4 ∉ ([2] ++ body ++ [3]) ++ [d1, d2] := by
    intro hmem
    rcases (by simpa using hmem : (4 = 2 ∨ 4 ∈ body ∨ 4 = 3) ∨ 4 = d1 ∨ 4 = d2)
      with (h2 | hb | h3) | hd | hd
    · exact absurd h2 (by norm_num)
    · exact hb4 hb
    · exact absurd h3 (by norm_num)
    · omega
    · omega
  have harg : ([2] ++ body ++ [3]) ++ build_crc ([2] ++ body ++ [3]) ++ [4] =
      (([2] ++ body ++ [3]) ++ [d1, d2]) ++ [4] := by
    rw [hcrc]
  rw [decodeFrames, harg, splitOn_term hx4]
  have hulen : (([2] ++ body ++ [3]) ++ [d1, d2]).length = body.length + 4 := by
    simp
  have hstr : ((([2] ++ body ++ [3]) ++ [d1, d2]).take
      ((([2] ++ body ++ [3]) ++ [d1, d2]).length - 3)).drop 1 = body := by
    rw [hulen,
      show ([2] ++ body ++ [3]) ++ [d1, d2] = ([2] ++ body) ++ ([3] ++ [d1, d2]) from by simp,
      List.take_left' (by simp)]
    simp
  have hdec : decodeUnit (([2] ++ body ++ [3]) ++ [d1, d2]) = some ⟨cmd, ps, []⟩ := by
    unfold decodeUnit
    rw [if_neg (by rw [hulen]; omega)]
    dsimp only
    rw [hstr, splitOn_sepFree hb30]
    dsimp only
    rw [hsplit]
    rfl
  have hnil : decodeUnit ([] : PyStr) = none := rfl
  simp only [List.filterMap_cons, hdec, hnil, List.filterMap_nil]

/-- C2: the encode/decode round-trip, amended with the requirement that
command and parameters consist of code points below 256 (in addition to
avoiding the control bytes): only then is the appended checksum two
characters long, so that decoding strips exactly ETX plus checksum.
Without the byte-range bound the claim fails, see the counterexample. -/
theorem C2_roundtrip (command : PyStr) (params : List PyStr)
    (hc : ∀ c ∈ command, c < 256 ∧ c ∉ ctlCodes)
    (hp : ∀ p ∈ params, ∀ c ∈ p, c < 256 ∧ c ∉ ctlCodes) :
    decodeFrames (encodeCommand command params) = [⟨command, params, []⟩] := by
  have hc' : ∀ c ∈ command, c < 256 ∧ c ≠ 2 ∧ c ≠ 3 ∧ c ≠ 4 ∧ c ≠ 29 ∧ c ≠ 30 := by
    intro c hcm
    have h := hc c hcm
    have h2 := h.2
    simp only [ctlCodes, List.mem_cons, List.not_mem_nil] at h2
    push_neg at h2
    exact ⟨h.1, h2.1, h2.2.1, h2.2.2.1, h2.2.2.2.1, by simpa using h2.2.2.2.2⟩
  have hp' : ∀ p ∈ params, ∀ c ∈ p, c < 256 ∧ c ≠ 2 ∧ c ≠ 3 ∧ c ≠ 4 ∧ c ≠ 29 ∧ c ≠ 30 := by
    intro p hpm c hcm
    have h := hp p hpm c hcm
    have h2 := h.2
    simp only [ctlCodes, List.mem_cons, List.not_mem_nil] at h2
    push_neg at h2
    exact ⟨h.1, h2.1, h2.2.1, h2.2.2.1, h2.2.2.2.1, by simpa using h2.2.2.2.2⟩
  rcases params with _ | ⟨q, qs⟩
  · have henc : encodeCommand command [] =
        ([2] ++ command ++ [3]) ++ build_crc ([2] ++ command ++ [3]) ++ [4] := by
      unfold encodeCommand send_ws_command_message
      simp [PyParamArg.truthy, PyParamArg.joined]
    rw [henc]
    exact decodeFrames_encoded command (fun c h => (hc' c h).1)
      (fun hmem => (hc' 4 hmem).2.2.2.1 rfl)
      (fun hmem => (hc' 30 hmem).2.2.2.2.2 rfl)
      command [] (splitOn_sepFree (fun hmem => (hc' 29 hmem).2.2.2.2.1 rfl))
  · have henc : encodeCommand command (q :: qs) =
        ([2] ++ (command ++ 29 :: List.intercalate [29] (q :: qs)) ++ [3]) ++
          build_crc ([2] ++ (command ++ 29 :: List.intercalate [29] (q :: qs)) ++ [3]) ++ [4] := by
      unfold encodeCommand send_ws_command_message
      simp [PyParamArg.truthy, PyParamArg.joined]
    have hmem_body : ∀ c ∈ command ++ 29 :: List.intercalate [29] (q :: qs),
        c ∈ command ∨ c = 29 ∨ ∃ l ∈ q :: qs, c ∈ l := by
      intro c hcm
      rcases List.mem_append.1 hcm with hcmd | hrest
      · exact Or.inl hcmd
      · rcases List.mem_cons.1 hrest with rfl | hinter
        · exact Or.inr (Or.inl rfl)
        · rcases mem_intercalate_single hinter with rfl | hl
          · exact Or.inr (Or.inl rfl)
          · exact Or.inr (Or.inr hl)
    have hblt : ∀ c ∈ command ++ 29 :: List.intercalate [29] (q :: qs), c < 256 := by
      intro c hcm
      rcases hmem_body c hcm with hcmd | rfl | ⟨l, hl, hcl⟩
      · exact (hc' c hcmd).1
      · norm_num
      · exact (hp' l hl c hcl).1
    have hb4 : 4 ∉ command ++ 29 :: List.intercalate [29] (q :: qs) := by
      intro hcm
      rcases hmem_body 4 hcm with hcmd | h29 | ⟨l, hl, hcl⟩
      · exact (hc' 4 hcmd).2.2.2.1 rfl
      · norm_num at h29
      · exact (hp' l hl 4 hcl).2.2.2.1 rfl
    have hb30 : 30 ∉ command ++ 29 :: List.intercalate [29] (q :: qs) := by
      intro hcm
      rcases hmem_body 30 hcm with hcmd | h29 | ⟨l, hl, hcl⟩
      · exact (hc' 30 hcmd).2.2.2.2.2 rfl
      · norm_num at h29
      · exact (hp' l hl 30 hcl).2.2.2.2.2 rfl
    have hbodysplit : (command ++ 29 :: List.intercalate [29] (q :: qs)).splitOn 29 =
        command :: q :: qs := by
      rw [show command ++ 29 :: List.intercalate [29] (q :: qs) =
            [29].intercalate (command :: q :: qs) from by rw [intercalate_two]]
      refine List.splitOn_intercalate _ 29 ?_ (by simp)
      intro l hl
      rcases List.mem_cons.1 hl with rfl | hl'
      · exact fun hcm => (hc' 29 hcm).2.2.2.2.1 rfl
      · exact fun hcm => (hp' l hl' 29 hcm).2.2.2.2.1 rfl
    rw [henc]
    exact decodeFrames_encoded _ hblt hb4 hb30 command (q :: qs) hbodysplit

/-- C2 witness: the round-trip at the concrete `GSF`/`["12"]` frame. -/
theorem C2_roundtrip_witness :
    decodeFrames (encodeCommand (strCodes "GSF") [strCodes "12"]) =
      [⟨strCodes "GSF", [strCodes "12"], []⟩] :=
  C2_roundtrip (strCodes "GSF") [strCodes "12"] (by decide) (by decide)

/-- C2 counterexample: for the command `"Ā"` (code point 0x100, not a
control byte) the checksum is three characters, so the decoder strips
one character too few and returns the command with a trailing ETX byte
instead of the original command. -/
theorem C2_counterexample :
    decodeFrames (encodeCommand [256] []) = [⟨[256, 3], [], []⟩] ∧
    decodeFrames (encodeCommand [256] []) ≠ [⟨[256], [], []⟩] := by decide

/-- C3 counterexample: dispatch is not total.  An `ack` frame with no
parameters (a frame the grammar allows) makes `manage_commands` read
`parameters[0]` inside its log call and raise `IndexError`; the model's
`error` value is the raise. -/
theorem C3_counterexample : manage_commands (strCodes "ack") [] [] (initState allOn 0) =
    .error (initState allOn 0) := by decide

/-- C3: amended totality.  Any command outside the known set is logged
and ignored without raising and without any state change, and likewise
any `upd` frame whose sub-command tag is unknown; but the known commands
may raise on missing parameters (see the counterexample), so dispatch is
not total over the full input alphabet. -/
theorem C3_unknown_ignored :
    (∀ (cmd : PyStr) (ps : List PyStr) (rs : List (List PyStr)) (st : ServerState),
      cmd ∉ [strCodes "pong", strCodes "ack", strCodes "ping", strCodes "gsf", strCodes "upd",
        strCodes "ldi", strCodes "cld", strCodes "net", strCodes "nack"] →
      manage_commands cmd ps rs st = .ok st) ∧
    (∀ (p0 : PyStr) (rest : List PyStr) (rs : List (List PyStr)) (st : ServerState),
      p0 ∉ [strCodes "WS", strCodes "X", strCodes "WT", strCodes "TT", strCodes "TP",
        strCodes "TR", strCodes "TLO", strCodes "D", strCodes "GUI"] →
      manage_upd (p0 :: rest) rs st = .ok st) := by
  constructor
  · intro cmd ps rs st h
    simp only [List.mem_cons, List.not_mem_nil, or_false] at h
    push_neg at h
    obtain ⟨h1, h2, h3, h4, h5, h6, h7, h8, h9⟩ := h
    unfold manage_commands
    rw [if_neg h1, if_neg h2, if_neg h3, if_neg h4, if_neg h5, if_neg h6, if_neg h7,
      if_neg h8, if_neg h9]
  · intro p0 rest rs st h
    simp only [List.mem_cons, List.not_mem_nil, or_false] at h
    push_neg at h
    obtain ⟨h1, h2, h3, h4, h5, h6, h7, h8, h9⟩ := h
    unfold manage_upd
    simp only [List.getElem?_cons_zero]
    rw [if_neg h1, if_neg h2, if_neg h3, if_neg (by tauto), if_neg (by tauto), if_neg h9]

theorem dispatchUnit_short {u : PyStr} (h : u.length < 3) (st : ServerState) :
    dispatchUnit u st = .ok st := by
  simp [dispatchUnit, decodeUnit, h]

/-- C4 counterexample: the `try` block of `on_message` wraps the whole
unit loop, so a dispatch failure in one unit aborts the remaining
units.  Here a buffer holds an `ack` unit without parameters (whose
dispatch raises) followed by a well-formed `ping` unit: the buffer
leaves the state unchanged — in particular no `PONG` reply is sent —
although the sibling unit decodes fine and dispatching it alone would
succeed. -/
theorem C4_counterexample :
    on_message (([2] ++ strCodes "ack" ++ [3, 48, 48]) ++ [4] ++
        ([2] ++ strCodes "ping" ++ [3, 48, 48]) ++ [4]) (initState allOn 0) =
      initState allOn 0 ∧
    decodeUnit ([2] ++ strCodes "ping" ++ [3, 48, 48]) = some ⟨strCodes "ping", [], []⟩ ∧
    manage_commands (strCodes "ping") [] [] (initState allOn 0) =
      .ok (send_ws_command (initState allOn 0) (strCodes "PONG") .noArg) := by decide

/-- C4: amended isolation.  Units shorter than 3 characters are skipped
without affecting their siblings — a buffer `[valid, garbage(<3),
valid2]` joined by EOT dispatches exactly the two valid frames in order
— but an exception while dispatching one unit ends processing of the
remaining units of the same buffer (the buffer-level handler only
logs), keeping the state already reached. -/
theorem C4_garbage_isolated :
    (∀ (u1 g u2 : PyStr) (st st1 st2 : ServerState),
      4 ∉ u1 → 4 ∉ g → 4 ∉ u2 → g.length < 3 →
      dispatchUnit u1 st = .ok st1 → dispatchUnit u2 st1 = .ok st2 →
      on_message (u1 ++ [4] ++ g ++ [4] ++ u2) st = st2) ∧
    (∀ (u1 u2 : PyStr) (st st' : ServerState),
      4 ∉ u1 → 4 ∉ u2 →
      dispatchUnit u1 st = .error st' →
      on_message (u1 ++ [4] ++ u2) st = st') := by
  constructor
  · intro u1 g u2 st st1 st2 h1 hg h2 hglen hd1 hd2
    unfold on_message
    rw [show u1 ++ [4] ++ g ++ [4] ++ u2 = [4].intercalate [u1, g, u2] from by
          rw [intercalate_two, intercalate_two, intercalate_one]; simp]
    rw [List.splitOn_intercalate _ 4 ?_ (by simp)]
    · simp only [processUnits, hd1, dispatchUnit_short hglen, hd2]
    · intro l hl
      rcases List.mem_cons.1 hl with rfl | hl'
      · exact h1
      · rcases List.mem_cons.1 hl' with rfl | hl''
        · exact hg
        · simp only [List.mem_singleton] at hl''
          subst hl''
          exact h2
  · intro u1 u2 st st' h1 h2 hd1
    unfold on_message
    rw [show u1 ++ [4] ++ u2 = [4].intercalate [u1, u2] from by
          rw [intercalate_two, intercalate_one]; simp]
    rw [List.splitOn_intercalate _ 4 ?_ (by simp)]
    · simp only [processUnits, hd1]
    · intro l hl
      rcases List.mem_cons.1 hl with rfl | hl'
      · exact h1
      · simp only [List.mem_singleton] at hl'
        subst hl'
        exact h2

/-- C4 witness: a valid `ping` unit, a one-character garbage unit, and a
valid `pong` unit in one buffer; exactly the two valid frames are
dispatched, in order, leaving the `PONG` reply in the send log. -/
theorem C4_garbage_isolated_witness :
    on_message (([2] ++ strCodes "ping" ++ [3, 48, 48]) ++ [4] ++ [48] ++ [4] ++
        ([2] ++ strCodes "pong" ++ [3, 48, 48]))
      (initState allOn 0) = send_ws_command (initState allOn 0) (strCodes "PONG") .noArg :=
  C4_garbage_isolated.1 ([2] ++ strCodes "ping" ++ [3, 48, 48]) [48]
    ([2] ++ strCodes "pong" ++ [3, 48, 48]) (initState allOn 0)
    (send_ws_command (initState allOn 0) (strCodes "PONG") .noArg)
    (send_ws_command (initState allOn 0) (strCodes "PONG") .noArg)
    (by decide) (by decide) (by decide) (by decide) (by decide) (by decide)

/-- C3 witness: the unknown top-level command `zzz` and the unknown
`upd` tag `QQ` at a concrete state. -/
theorem C3_unknown_ignored_witness :
    manage_commands (strCodes "zzz") [] [] (initState allOn 0) = .ok (initState allOn 0) ∧
    manage_upd [strCodes "QQ"] [] (initState allOn 0) = .ok (initState allOn 0) :=
  ⟨C3_unknown_ignored.1 _ _ _ _ (by decide), C3_unknown_ignored.2 _ _ _ _ (by decide)⟩

/-- C8: with `fetch_sensor_areas = false`, an inbound `upd X A …` frame
returns before touching anything: no notification, no table mutation,
the whole state unchanged. -/
theorem C8_area_gating (rest : List PyStr) (records : List (List PyStr)) (st : ServerState)
    (h : st.settings.fetch_sensor_areas = false) :
    manage_upd (strCodes "X" :: strCodes "A" :: rest) records st = .ok st := by
  unfold manage_upd
  simp only [List.getElem?_cons_zero, List.getElem?_cons_succ]
  simp [h, show ¬ strCodes "X" = strCodes "WS" from by decide]

/-- C8 witness: a concrete gated `upd X A` frame. -/
theorem C8_area_gating_witness :
    manage_upd [strCodes "X", strCodes "A", strCodes "3", strCodes "0", strCodes "0",
      strCodes "0", strCodes "1"] [] (initState areasOff 0) = .ok (initState areasOff 0) :=
  C8_area_gating _ [] (initState areasOff 0) (by decide)

/-- C10: the creation-callback slots are one-shot.  A registration on an
already-filled slot is a no-op on the whole state; on an empty slot the
first registration wins and any later one changes nothing. -/
theorem C10_one_shot :
    (∀ (st : ServerState) (f : Nat), st.async_add_bs_entities ≠ none →
      set_async_add_bs_entities st f = st) ∧
    (∀ (st : ServerState) (f : Nat), st.async_add_sw_entities ≠ none →
      set_async_add_sw_entities st f = st) ∧
    (∀ (st : ServerState) (f g : Nat), st.async_add_bs_entities = none →
      set_async_add_bs_entities (set_async_add_bs_entities st f) g =
        set_async_add_bs_entities st f ∧
      (set_async_add_bs_entities st f).async_add_bs_entities = some f) ∧
    (∀ (st : ServerState) (f g : Nat), st.async_add_sw_entities = none →
      set_async_add_sw_entities (set_async_add_sw_entities st f) g =
        set_async_add_sw_entities st f ∧
      (set_async_add_sw_entities st f).async_add_sw_entities = some f) := by
  refine ⟨fun st f h => ?_, fun st f h => ?_, fun st f g h => ?_, fun st f g h => ?_⟩
  · simp [set_async_add_bs_entities, h]
  · simp [set_async_add_sw_entities, h]
  · simp [set_async_add_bs_entities, h]
  · simp [set_async_add_sw_entities, h]

/-- C10 witness: double registrations on the fresh session. -/
theorem C10_one_shot_witness :
    set_async_add_bs_entities (set_async_add_bs_entities (initState allOn 0) 7) 8 =
      set_async_add_bs_entities (initState allOn 0) 7 ∧
    (set_async_add_bs_entities (initState allOn 0) 7).async_add_bs_entities = some 7 ∧
    (set_async_add_sw_entities (set_async_add_sw_entities (initState allOn 0) 5) 6 =
        set_async_add_sw_entities (initState allOn 0) 5 ∧
      (set_async_add_sw_entities (initState allOn 0) 5).async_add_sw_entities = some 5) :=
  ⟨(C10_one_shot.2.2.1 _ 7 8 rfl).1, (C10_one_shot.2.2.1 _ 7 8 rfl).2,
    C10_one_shot.2.2.2 _ 5 6 rfl⟩

/-- C9 counterexample: a binary sensor seeded by an `ldi`-style call
with status −1 is not unknown: creation stores `device_status > 0`,
i.e. `False`, so the observable value is "off" (`some false`), not
`none`. -/
theorem C9_counterexample :
    (dictGet (bs_set_sensor_uid 12 5)
      (update_binary_sensor (initState allOn 0) 12 5 (-1)
        (some (strCodes "Area"))).binary_sensors).map MotionBS.is_on =
      some (some false) := by decide

/-- C9: amended.  A switch seeded with status −1 is unknown
(`_attr_is_on` unset) until a status ≥ 0 arrives, which then shows
`bool(status)`; a binary sensor seeded with status −1 instead reports
"off" immediately (its creation maps −1 through `status > 0`). -/
theorem C9_seed_unknown (id : Int) (nm : Option PyStr) (now : Nat) (s : Int) (hs : 0 ≤ s) :
    ((dictGet (sw_set_sensor_uid 1 id)
      (update_switch (initState allOn now) 1 id (-1) nm).switches).map
        (fun w => w.attr_is_on) = some none) ∧
    ((dictGet (sw_set_sensor_uid 1 id)
      (update_switch (update_switch (initState allOn now) 1 id (-1) nm) 1 id s
        none).switches).map (fun w => w.attr_is_on) = some (some (decide (s ≠ 0)))) ∧
    ((dictGet (bs_set_sensor_uid 12 id)
      (update_binary_sensor (initState allOn now) 12 id (-1) nm).binary_sensors).map
        MotionBS.is_on = some (some false)) := by
  have hns : ¬ s < 0 := not_lt.2 hs
  rcases nm with _ | nm <;>
    simp [update_switch, update_switch_core, update_binary_sensor, update_binary_sensor_core,
      dictGet, dictSet, initState, allOn, LightSw.update_state, MotionBS.is_on,
      MotionBS.update_state, notify, hs, hns]

/-- C9 witness: device 5 seeded with −1 and then set to 1. -/
theorem C9_seed_unknown_witness :
    (0 : Int) ≤ 1 ∧
    (((dictGet (sw_set_sensor_uid 1 5)
      (update_switch (initState allOn 0) 1 5 (-1) (some (strCodes "Lamp"))).switches).map
        (fun w => w.attr_is_on) = some none) ∧
    ((dictGet (sw_set_sensor_uid 1 5)
      (update_switch (update_switch (initState allOn 0) 1 5 (-1) (some (strCodes "Lamp"))) 1 5 1
        none).switches).map (fun w => w.attr_is_on) = some (some (decide ((1 : Int) ≠ 0)))) ∧
    ((dictGet (bs_set_sensor_uid 12 5)
      (update_binary_sensor (initState allOn 0) 12 5 (-1)
        (some (strCodes "Lamp"))).binary_sensors).map MotionBS.is_on = some (some false))) :=
  ⟨by decide, C9_seed_unknown 5 (some (strCodes "Lamp")) 0 1 (by decide)⟩

/-- C5 counterexample: applying the same positive status twice is not a
no-op.  `update_state` stamps `last_revealed` on every positive status
(not only on a transition), so the second identical call moves the
timestamp, and it calls `async_write_ha_state` again, emitting a second
notification. -/
theorem C5_counterexample :
    ((c5bs.update_state (some 1) 100).1.update_state (some 1) 200).1.last_revealed ≠
      (c5bs.update_state (some 1) 100).1.last_revealed ∧
    ((c5bs.update_state (some 1) 100).1.update_state (some 1) 200).2 = true := by decide

/-- C5: amended idempotence.  Re-applying the same non-negative status
never changes the observable on/off value; a repeated status 0 is a
full no-op on the motion sensor's state (timestamps included); but a
repeated positive status refreshes `last_revealed` to the newer
timestamp, and both the motion sensor and the switch notify the
platform on every application, the second included. -/
theorem C5_idempotent :
    (∀ (d : MotionBS) (s : Int) (t1 t2 : Nat), 0 ≤ s →
      ((d.update_state (some s) t1).1.update_state (some s) t2).1.is_on =
        (d.update_state (some s) t1).1.is_on ∧
      (s = 0 → ((d.update_state (some s) t1).1.update_state (some s) t2).1 =
        (d.update_state (some s) t1).1) ∧
      (0 < s → ((d.update_state (some s) t1).1.update_state (some s) t2).1 =
        { (d.update_state (some s) t1).1 with last_revealed := some t2 }) ∧
      (d.update_state (some s) t1).2 = true ∧
      ((d.update_state (some s) t1).1.update_state (some s) t2).2 = true) ∧
    (∀ (w : LightSw) (s : Int), 0 ≤ s →
      ((w.update_state (some s)).1.update_state (some s)).1 = (w.update_state (some s)).1 ∧
      (w.update_state (some s)).2 = true ∧
      ((w.update_state (some s)).1.update_state (some s)).2 = true) := by
  constructor
  · intro d s t1 t2 hs
    rcases eq_or_lt_of_le hs with heq | hpos
    · rw [← heq]
      simp [MotionBS.update_state, MotionBS.statusTruthy, MotionBS.is_on]
    · simp [MotionBS.update_state, MotionBS.statusTruthy, MotionBS.is_on, hpos,
        not_lt_of_lt hpos, le_of_lt hpos]
      intro h
      omega
  · intro w s hs
    simp [LightSw.update_state, not_lt.2 hs]

/-- C5 witness: a double application of status 1 at times 100 and 200 to
the concrete sensor, and of status 1 to a switch derived from it. -/
theorem C5_idempotent_witness :
    (0 : Int) ≤ 1 ∧
    (((c5bs.update_state (some 1) 100).1.update_state (some 1) 200).1.is_on =
      (c5bs.update_state (some 1) 100).1.is_on ∧
    ((1 : Int) = 0 → ((c5bs.update_state (some 1) 100).1.update_state (some 1) 200).1 =
      (c5bs.update_state (some 1) 100).1) ∧
    ((0 : Int) < 1 → ((c5bs.update_state (some 1) 100).1.update_state (some 1) 200).1 =
      { (c5bs.update_state (some 1) 100).1 with last_revealed := some 200 }) ∧
    (c5bs.update_state (some 1) 100).2 = true ∧
    ((c5bs.update_state (some 1) 100).1.update_state (some 1) 200).2 = true) :=
  ⟨by decide, C5_idempotent.1 c5bs 1 100 200 (by decide)⟩

/-- C7: the connect loop after one failed and one successful
`authenticate` produces exactly one 5-second wait followed by the
on-connect sends, each once and in order: `LDI`; `GSF` for family 1;
`GSF` for family 12; the family-12 subscription; `SU3`.  However, the
subscription call passes the Python *string* `"12"` to
`send_ws_command`, whose `chr(0x1D).join(parameters)` iterates the
characters, so the `WSF` frame carries the two parameters `"1"`, `"2"`
on the wire rather than the single parameter `"12"` the adjacent `GSF`
(called with the list `["12"]`) carries — evaluating the code at the
claim's scenario exhibits the divergence. -/
theorem C7_reconnect_trace :
    start_until_receive [false, true] allOn =
      [ConnEv.sleep5,
       ConnEv.send (send_ws_command_message (strCodes "LDI") .noArg),
       ConnEv.send (send_ws_command_message (strCodes "GSF") (.ofStr (strCodes "1"))),
       ConnEv.send (send_ws_command_message (strCodes "GSF") (.ofList [strCodes "12"])),
       ConnEv.send (send_ws_command_message (strCodes "WSF") (.ofStr (strCodes "12"))),
       ConnEv.send (send_ws_command_message (strCodes "SU3") .noArg)] ∧
    decodeFrames (send_ws_command_message (strCodes "WSF") (.ofStr (strCodes "12"))) =
      [⟨strCodes "WSF", [strCodes "1", strCodes "2"], []⟩] ∧
    decodeFrames (send_ws_command_message (strCodes "GSF") (.ofList [strCodes "12"])) =
      [⟨strCodes "GSF", [strCodes "12"], []⟩] := by decide

/-- C6 counterexample: creation is not order-independent.  Seeding via
`ldi` (status −1, name) and then applying a `gsf` status 1 stamps
`last_revealed`; the reverse order creates the device directly with the
status and never stamps it, so the final cached devices differ. -/
theorem C6_counterexample :
    (update_binary_sensor (update_binary_sensor (initState allOn 7) 12 5 (-1)
        (some (strCodes "Area"))) 12 5 1 none).binary_sensors ≠
      (update_binary_sensor (update_binary_sensor (initState allOn 7) 12 5 1 none) 12 5 (-1)
        (some (strCodes "Area"))).binary_sensors ∧
    ((dictGet (bs_set_sensor_uid 12 5)
      (update_binary_sensor (update_binary_sensor (initState allOn 7) 12 5 (-1)
        (some (strCodes "Area"))) 12 5 1 none).binary_sensors).map
          (fun d => d.last_revealed)) = some (some 7) ∧
    ((dictGet (bs_set_sensor_uid 12 5)
      (update_binary_sensor (update_binary_sensor (initState allOn 7) 12 5 1 none) 12 5 (-1)
        (some (strCodes "Area"))).binary_sensors).map
          (fun d => d.last_revealed)) = some none := by decide

/-- C6: amended order-independence.  In either order exactly one cached
entry results, carrying the listed name (shown and hub-provided) and
the same observable on/off value; but the two orders do not produce the
same final Device: seed-then-update stores the raw status and stamps
`last_revealed` when the status is positive, while update-then-seed
stores the boolean image of the status and leaves the timestamp empty
(for switches the difference is confined to the internal `_is_on`
field). -/
theorem C6_order (id : Int) (nm : PyStr) (s : Int) (now : Nat) (hs : 0 ≤ s) :
    (update_binary_sensor (update_binary_sensor (initState allOn now) 12 id (-1) (some nm))
        12 id s none).binary_sensors =
      [(bs_set_sensor_uid 12 id,
        { unique_id := bs_set_sensor_uid 12 id, family := 12, ave_device_id := id
          is_motion_detected := some s
          last_revealed := if 0 < s then some now else none
          last_cleared := none, ave_name := some nm, name := nm })] ∧
    (update_binary_sensor (update_binary_sensor (initState allOn now) 12 id s none)
        12 id (-1) (some nm)).binary_sensors =
      [(bs_set_sensor_uid 12 id,
        { unique_id := bs_set_sensor_uid 12 id, family := 12, ave_device_id := id
          is_motion_detected := some (if s > 0 then 1 else 0)
          last_revealed := none, last_cleared := none
          ave_name := some nm, name := nm })] ∧
    (update_switch (update_switch (initState allOn now) 1 id (-1) (some nm))
        1 id s none).switches =
      [(sw_set_sensor_uid 1 id,
        { unique_id := sw_set_sensor_uid 1 id, family := 1, ave_device_id := id
          is_on_raw := some (-1), attr_is_on := some (decide (s ≠ 0))
          ave_name := some nm, name := nm })] ∧
    (update_switch (update_switch (initState allOn now) 1 id s none)
        1 id (-1) (some nm)).switches =
      [(sw_set_sensor_uid 1 id,
        { unique_id := sw_set_sensor_uid 1 id, family := 1, ave_device_id := id
          is_on_raw := some s, attr_is_on := some (decide (s ≠ 0))
          ave_name := some nm, name := nm })] := by
  have hns : ¬ s < 0 := not_lt.2 hs
  rcases eq_or_lt_of_le hs with heq | hpos
  · rw [← heq]
    simp [update_binary_sensor, update_binary_sensor_core, update_switch, update_switch_core,
      dictGet, dictSet, initState, allOn, LightSw.update_state, MotionBS.update_state,
      MotionBS.statusTruthy, notify]
  · simp [update_binary_sensor, update_binary_sensor_core, update_switch, update_switch_core,
      dictGet, dictSet, initState, allOn, LightSw.update_state, MotionBS.update_state,
      MotionBS.statusTruthy, notify, hs, hns, hpos, not_lt_of_lt hpos, le_of_lt hpos]

/-- C6 witness: device 5 named `Area`, status 1, timestamp 7. -/
theorem C6_order_witness :
    (update_binary_sensor (update_binary_sensor (initState allOn 7) 12 5 (-1)
        (some (strCodes "Area"))) 12 5 1 none).binary_sensors =
      [(bs_set_sensor_uid 12 5,
        { unique_id := bs_set_sensor_uid 12 5, family := 12, ave_device_id := 5
          is_motion_detected := some 1
          last_revealed := if (0 : Int) < 1 then some 7 else none
          last_cleared := none, ave_name := some (strCodes "Area"), name := strCodes "Area" })] ∧
    (update_binary_sensor (update_binary_sensor (initState allOn 7) 12 5 1 none)
        12 5 (-1) (some (strCodes "Area"))).binary_sensors =
      [(bs_set_sensor_uid 12 5,
        { unique_id := bs_set_sensor_uid 12 5, family := 12, ave_device_id := 5
          is_motion_detected := some (if (1 : Int) > 0 then 1 else 0)
          last_revealed := none, last_cleared := none
          ave_name := some (strCodes "Area"), name := strCodes "Area" })] ∧
    (update_switch (update_switch (initState allOn 7) 1 5 (-1) (some (strCodes "Area")))
        1 5 1 none).switches =
      [(sw_set_sensor_uid 1 5,
        { unique_id := sw_set_sensor_uid 1 5, family := 1, ave_device_id := 5
          is_on_raw := some (-1), attr_is_on := some (decide ((1 : Int) ≠ 0))
          ave_name := some (strCodes "Area"), name := strCodes "Area" })] ∧
    (update_switch (update_switch (initState allOn 7) 1 5 1 none)
        1 5 (-1) (some (strCodes "Area"))).switches =
      [(sw_set_sensor_uid 1 5,
        { unique_id := sw_set_sensor_uid 1 5, family := 1, ave_device_id := 5
          is_on_raw := some 1, attr_is_on := some (decide ((1 : Int) ≠ 0))
          ave_name := some (strCodes "Area"), name := strCodes "Area" })] :=
  C6_order 5 (strCodes "Area") 1 7 (by decide)
